import Mathlib

/-!
Verification development for the Narrate interpreter (a small interactive-fiction
scripting language): tokenizer, recursive-descent parser, AST, and execution engine.

Python text is modelled as `List Char`; Python exceptions are modelled by the
`PyErr` sum type; loops of the source are modelled with an explicit fuel
parameter, with `none` standing for a computation that never finishes
(fuel exhausted no matter the bound).  ASCII character classification is used
for `str.isalpha` / `str.isalnum` / `str.lower`, which agrees with Python on the
ASCII inputs all claims are about.
-/

/-- The kinds of Python exceptions the embedded code can raise.  Line numbers and
message payloads of the source exceptions are elided: no claim depends on them. -/
inductive PyErr where
  | tokenError
  | parsingError
  | valueError
  | attributeError
  | indexError
  | assertionError
  | fileNotFoundError
  deriving DecidableEq, Repr

/-- Literal brace characters, written by code point to keep them out of string
and character literals. -/
def openBraceChar : Char := Char.ofNat 123

def closeBraceChar : Char := Char.ofNat 125

/-- Python `str.lower`, restricted to ASCII case mapping. -/
def pyLower (s : List Char) : List Char := s.map Char.toLower

/-- Python sequence indexing `l[i]`: negative indices count from the end,
anything out of range raises `IndexError`. -/
def pyGetItem {α : Type} (l : List α) (i : Int) : Except PyErr α :=
  let j : Int := if i < 0 then (l.length : Int) + i else i
  if 0 ≤ j then
    match l.get? j.toNat with
    | some a => .ok a
    | none => .error .indexError
  else .error .indexError

/-- Python `list.remove(v)`: drop the first element equal to `v`, raise
`ValueError` when there is none. -/
def pyRemove {α : Type} [DecidableEq α] (l : List α) (v : α) : Except PyErr (List α) :=
  match l with
  | [] => .error .valueError
  | x :: rest =>
    if x = v then .ok rest
    else
      match pyRemove rest v with
      | .ok rest2 => .ok (x :: rest2)
      | .error e => .error e

/-- Does the text contain the two-character scope separator (Python
`"::" in identifier`)? -/
def hasScope : List Char → Bool
  | ':' :: ':' :: _ => true
  | _ :: rest => hasScope rest
  | [] => false

/-- Python `identifier.split("::")`: split on non-overlapping occurrences of the
two-character scope separator, left to right. -/
def splitScopeAux : List Char → List Char → List (List Char)
  | [], acc => [acc.reverse]
  | ':' :: ':' :: rest, acc => acc.reverse :: splitScopeAux rest []
  | c :: rest, acc => splitScopeAux rest (c :: acc)

def splitScope (s : List Char) : List (List Char) := splitScopeAux s []

/-! ## tokens.py -/

/-- The `TokenType` enumeration of tokens.py. -/
inductive TokenType where
  | Module
  | Scene
  | EndModule
  | EndScene
  | FileReference
  | Flavortext
  | Select
  | Has
  | Get
  | Lose
  | No
  | Colon
  | Semicolon
  | OpenBrace
  | CloseBrace
  | Comma
  | OpenParen
  | CloseParen
  | Condition
  | Arrow
  | Scope
  | String
  | Identifier
  | Eof
  deriving DecidableEq, Repr

/-- The string value of each `TokenType` member (StrEnum semantics: explicit
spellings for the keywords and punctuation, the lowercased member name for the
`auto()` members `String`, `Identifier`, `Eof`). -/
def tokenTypeValue : TokenType → List Char
  | .Module => "@module".data
  | .Scene => "@scene".data
  | .EndModule => "@end-module".data
  | .EndScene => "@end-scene".data
  | .FileReference => "@file".data
  | .Flavortext => "flavortext".data
  | .Select => "select".data
  | .Has => "has".data
  | .Get => "get".data
  | .Lose => "lose".data
  | .No => "no".data
  | .Colon => ":".data
  | .Semicolon => ";".data
  | .OpenBrace => [openBraceChar]
  | .CloseBrace => [closeBraceChar]
  | .Comma => ",".data
  | .OpenParen => "(".data
  | .CloseParen => ")".data
  | .Condition => "?".data
  | .Arrow => "=>".data
  | .Scope => "::".data
  | .String => "string".data
  | .Identifier => "identifier".data
  | .Eof => "eof".data

/-- Python attribute lookup `TokenType.<name>` on the enum class: the table of
member names actually declared in tokens.py.  A name that is not declared there
(such as `QuestionMark`, which narrate_parser.py refers to — the member for `?`
is called `Condition`) raises `AttributeError`, modelled by `none`. -/
def TokenType.pyMember : List Char → Option TokenType
  | n =>
    if n = "Module".data then some .Module
    else if n = "Scene".data then some .Scene
    else if n = "EndModule".data then some .EndModule
    else if n = "EndScene".data then some .EndScene
    else if n = "FileReference".data then some .FileReference
    else if n = "Flavortext".data then some .Flavortext
    else if n = "Select".data then some .Select
    else if n = "Has".data then some .Has
    else if n = "Get".data then some .Get
    else if n = "Lose".data then some .Lose
    else if n = "No".data then some .No
    else if n = "Colon".data then some .Colon
    else if n = "Semicolon".data then some .Semicolon
    else if n = "OpenBrace".data then some .OpenBrace
    else if n = "CloseBrace".data then some .CloseBrace
    else if n = "Comma".data then some .Comma
    else if n = "OpenParen".data then some .OpenParen
    else if n = "CloseParen".data then some .CloseParen
    else if n = "Condition".data then some .Condition
    else if n = "Arrow".data then some .Arrow
    else if n = "Scope".data then some .Scope
    else if n = "String".data then some .String
    else if n = "Identifier".data then some .Identifier
    else if n = "Eof".data then some .Eof
    else none

/-- A token: its type plus its value.  Per `Token.__init__`, a `String` or
`Identifier` token carries the supplied payload and every other token carries
its type's canonical spelling. -/
structure Token where
  token_type : TokenType
  value : List Char
  deriving DecidableEq, Repr

/-- Construct a token the way `Token.__init__` does for the non-payload kinds. -/
def mkKwToken (tt : TokenType) : Token := ⟨tt, tokenTypeValue tt⟩

def eofToken : Token := mkKwToken .Eof

/-! ## tokenizer.py -/

/-- The mutable state of the `Tokenizer` class: the full text plus the cursor
and the 1-based line counter. -/
structure LexState where
  text : List Char
  current_position : Nat
  current_line : Nat
  deriving DecidableEq, Repr

/-- A fresh tokenizer over the given text (`Tokenizer.__init__`). -/
def mkLex (text : List Char) : LexState := ⟨text, 0, 1⟩

/-- `Tokenizer.current_char`: the character at the cursor, or `none` past the end. -/
def currentChar (st : LexState) : Option Char := st.text.get? st.current_position

/-- `Tokenizer.next_char`: the character directly after the cursor. -/
def nextChar (st : LexState) : Option Char := st.text.get? (st.current_position + 1)

/-- `Tokenizer.advance`: move the cursor forward, bumping the line counter when
the character being left is a newline. -/
def advance (st : LexState) : LexState :=
  { st with
    current_position := st.current_position + 1
    current_line :=
      if currentChar st = some '\n' then st.current_line + 1 else st.current_line }

/-- `Tokenizer.skip_whitespace`. -/
def skipWhitespace : Nat → LexState → Option LexState
  | fuel, st =>
    match currentChar st with
    | some c =>
      if c.isWhitespace then
        match fuel with
        | 0 => none
        | f + 1 => skipWhitespace f (advance st)
      else some st
    | none => some st

/-- The inner loop of `Tokenizer.skip_comment`: advance while the current
character differs from a newline.  At end of input the comparison
`None != '\n'` stays true, so the Python loop never stops — modelled by fuel
exhaustion. -/
def skipCommentInner : Nat → LexState → Option LexState
  | fuel, st =>
    if currentChar st ≠ some '\n' then
      match fuel with
      | 0 => none
      | f + 1 => skipCommentInner f (advance st)
    else some st

/-- `Tokenizer.skip_comment`: while the current character is the comment sigil,
run to the next newline and step over it. -/
def skipComment : Nat → LexState → Option LexState
  | fuel, st =>
    if currentChar st = some '#' then
      match skipCommentInner fuel st with
      | none => none
      | some st1 =>
        match fuel with
        | 0 => none
        | f + 1 => skipComment f (advance st1)
    else some st

/-- Is there a two-space run in the text (Python `"  " in result`)? -/
def hasDoubleSpace : List Char → Bool
  | ' ' :: ' ' :: _ => true
  | _ :: rest => hasDoubleSpace rest
  | [] => false

/-- One pass of Python `result.replace("  ", " ")`: replace non-overlapping
two-space runs left to right. -/
def replaceDoubleSpace : List Char → List Char
  | ' ' :: ' ' :: rest => ' ' :: replaceDoubleSpace rest
  | c :: rest => c :: replaceDoubleSpace rest
  | [] => []

/-- The `while "  " in result` loop of `Tokenizer.truncate_spaces`; each
iteration shortens the text, so `s.length` rounds of fuel always suffice. -/
def truncateSpacesAux : Nat → List Char → List Char
  | 0, s => s
  | f + 1, s => if hasDoubleSpace s then truncateSpacesAux f (replaceDoubleSpace s) else s

/-- `Tokenizer.truncate_spaces`: collapse every run of spaces to a single space. -/
def truncateSpaces (s : List Char) : List Char := truncateSpacesAux s.length s

/-- The scanning loop of `Tokenizer.tokenize_string`.  Mirrors the source: an
escape consumes the following character (`\n` also bumps the line counter, an
unknown escape is a `TokenError`), a bare character is appended, and past the
end of input the loop keeps appending `str(None)` forever (fuel exhaustion). -/
def stringAux : Nat → LexState → List Char → Option (Except PyErr (List Char × LexState))
  | fuel, st, acc =>
    match currentChar st with
    | some c =>
      if c = '"' then some (.ok (acc, advance st))
      else if c = '\\' then
        let st1 := advance st
        match currentChar st1 with
        | some c2 =>
          if c2 = 'n' then
            let st2 : LexState := { st1 with current_line := st1.current_line + 1 }
            match fuel with
            | 0 => none
            | f + 1 => stringAux f (advance st2) (acc ++ ['\n'])
          else if c2 = 't' then
            match fuel with
            | 0 => none
            | f + 1 => stringAux f (advance st1) (acc ++ ['\t'])
          else if c2 = '"' then
            match fuel with
            | 0 => none
            | f + 1 => stringAux f (advance st1) (acc ++ ['"'])
          else some (.error .tokenError)
        | none => some (.error .tokenError)
      else
        match fuel with
        | 0 => none
        | f + 1 => stringAux f (advance st) (acc ++ [c])
    | none =>
      match fuel with
      | 0 => none
      | f + 1 => stringAux f (advance st) (acc ++ "None".data)

/-- `Tokenizer.tokenize_string`: step past the opening quote, scan, and collapse
space runs in the collected characters. -/
def tokenizeString (fuel : Nat) (st : LexState) : Option (Except PyErr (Token × LexState)) :=
  match stringAux fuel (advance st) [] with
  | none => none
  | some (.error e) => some (.error e)
  | some (.ok (chars, st1)) => some (.ok (⟨.String, truncateSpaces chars⟩, st1))

/-- The letter/dash consuming loop shared by `tokenize_delimeter` and
`tokenize_identifier_or_directive` (`while current.isalpha() or current == '-'`).
Digits do NOT continue the run. -/
def identAux : Nat → LexState → List Char → Option (List Char × LexState)
  | fuel, st, acc =>
    match currentChar st with
    | some c =>
      if c.isAlpha || c = '-' then
        match fuel with
        | 0 => none
        | f + 1 => identAux f (advance st) (acc ++ [c])
      else some (acc, st)
    | none => some (acc, st)

/-- `Tokenizer.tokenize_delimeter`: consume the sigil plus a letter/dash run and
validate against the five structural keywords. -/
def tokenizeDelimeter (fuel : Nat) (st : LexState) : Option (Except PyErr (Token × LexState)) :=
  match currentChar st with
  | none => some (.error .tokenError)
  | some c0 =>
    match identAux fuel (advance st) [c0] with
    | none => none
    | some (delimeter, st1) =>
      if delimeter = "@module".data then some (.ok (mkKwToken .Module, st1))
      else if delimeter = "@end-module".data then some (.ok (mkKwToken .EndModule, st1))
      else if delimeter = "@scene".data then some (.ok (mkKwToken .Scene, st1))
      else if delimeter = "@end-scene".data then some (.ok (mkKwToken .EndScene, st1))
      else if delimeter = "@file".data then some (.ok (mkKwToken .FileReference, st1))
      else some (.error .tokenError)

/-- `Tokenizer.tokenize_identifier_or_directive`: consume a letter/dash run,
classify it as a directive keyword, else as an `Identifier` when every consumed
character is alphanumeric or a dash (vacuously true for the empty run), else a
`TokenError`. -/
def tokenizeIdentifierOrDirective (fuel : Nat) (st : LexState) :
    Option (Except PyErr (Token × LexState)) :=
  match identAux fuel st [] with
  | none => none
  | some (tv, st1) =>
    if tv = "flavortext".data then some (.ok (mkKwToken .Flavortext, st1))
    else if tv = "select".data then some (.ok (mkKwToken .Select, st1))
    else if tv = "get".data then some (.ok (mkKwToken .Get, st1))
    else if tv = "lose".data then some (.ok (mkKwToken .Lose, st1))
    else if tv = "has".data then some (.ok (mkKwToken .Has, st1))
    else if tv = "no".data then some (.ok (mkKwToken .No, st1))
    else if tv.all (fun c => c.isAlphanum || c = '-') then some (.ok (⟨.Identifier, tv⟩, st1))
    else some (.error .tokenError)

/-- `Tokenizer.tokenize_punctuation`, with the one-character lookahead for the
two-character tokens. -/
def tokenizePunctuation (st : LexState) : Except PyErr (Token × LexState) :=
  match currentChar st with
  | none => .error .tokenError
  | some c =>
    if c = ':' then
      let st1 := advance st
      if currentChar st1 = some ':' then .ok (mkKwToken .Scope, advance st1)
      else .ok (mkKwToken .Colon, st1)
    else if c = '=' then
      let st1 := advance st
      if currentChar st1 = some '>' then .ok (mkKwToken .Arrow, advance st1)
      else .error .tokenError
    else if c = ';' then .ok (mkKwToken .Semicolon, advance st)
    else if c = ',' then .ok (mkKwToken .Comma, advance st)
    else if c = '?' then .ok (mkKwToken .Condition, advance st)
    else if c = openBraceChar then .ok (mkKwToken .OpenBrace, advance st)
    else if c = closeBraceChar then .ok (mkKwToken .CloseBrace, advance st)
    else if c = '(' then .ok (mkKwToken .OpenParen, advance st)
    else if c = ')' then .ok (mkKwToken .CloseParen, advance st)
    else .error .tokenError

/-- `Tokenizer.get_next_token`: dispatch on the current character; after
skipping whitespace or a comment it calls itself again. -/
def getNextToken : Nat → LexState → Option (Except PyErr (Token × LexState))
  | fuel, st =>
    match currentChar st with
    | none => some (.ok (eofToken, st))
    | some c =>
      if c.isWhitespace then
        match skipWhitespace fuel st with
        | none => none
        | some st1 =>
          match fuel with
          | 0 => none
          | f + 1 => getNextToken f st1
      else if c = '#' then
        match skipComment fuel st with
        | none => none
        | some st1 =>
          match fuel with
          | 0 => none
          | f + 1 => getNextToken f st1
      else if c = '@' then tokenizeDelimeter fuel st
      else if c = '"' then tokenizeString fuel st
      else if c.isAlphanum then tokenizeIdentifierOrDirective fuel st
      else
        match tokenizePunctuation st with
        | .ok r => some (.ok r)
        | .error e => some (.error e)

/-- The collecting loop of `Tokenizer.tokenize`: keep appending tokens until the
last one appended is `Eof`. -/
def tokenizeAux : Nat → LexState → List Token → Option (Except PyErr (List Token))
  | 0, _, _ => none
  | fuel + 1, st, acc =>
    match getNextToken (fuel + 1) st with
    | none => none
    | some (.error e) => some (.error e)
    | some (.ok (tok, st1)) =>
      if tok.token_type = .Eof then some (.ok (acc ++ [tok]))
      else tokenizeAux fuel st1 (acc ++ [tok])

/-- `Tokenizer.tokenize`: the whole text as a token list. -/
def tokenize (fuel : Nat) (text : List Char) : Option (Except PyErr (List Token)) :=
  tokenizeAux fuel (mkLex text) []

/-! ## narrate_ast.py -/

/-- `SelectCondition.{included,excluded}`: token lists of required-present and
required-absent items. -/
structure SelectCondition where
  included : List Token
  excluded : List Token
  deriving DecidableEq, Repr

/-- `SelectCondition.__init__`: every parameter token must be a `String`. -/
def mkSelectCondition (included excluded : List Token) : Except PyErr SelectCondition :=
  if (included ++ excluded).any (fun t => t.token_type ≠ TokenType.String) then
    .error .valueError
  else .ok ⟨included, excluded⟩

/-- `FileReference`: a select target in another file. -/
structure FileReference where
  filename : List Char
  module_id : Option Token
  scene_id : Token
  deriving DecidableEq, Repr

/-- `FileReference.__init__`: the module id (when present) and the scene id must
be `Identifier` tokens. -/
def mkFileReference (filename : List Char) (module_id : Option Token) (scene_id : Token) :
    Except PyErr FileReference :=
  match module_id with
  | some m =>
    if m.token_type = TokenType.Identifier then
      if scene_id.token_type = TokenType.Identifier then .ok ⟨filename, some m, scene_id⟩
      else .error .valueError
    else .error .valueError
  | none =>
    if scene_id.token_type = TokenType.Identifier then .ok ⟨filename, none, scene_id⟩
    else .error .valueError

/-- `FileReference.scoped_scene_id`. -/
def scopedSceneId (fr : FileReference) : List Char :=
  match fr.module_id with
  | some m => m.value ++ "::".data ++ fr.scene_id.value
  | none => fr.scene_id.value

/-- `SceneReference`: a select target within the current file. -/
structure SceneReference where
  module_id : Option Token
  scene_id : Token
  deriving DecidableEq, Repr

/-- `SceneReference.__init__` validation. -/
def mkSceneReference (module_id : Option Token) (scene_id : Token) :
    Except PyErr SceneReference :=
  if module_id.any (fun m => m.token_type ≠ TokenType.Identifier) then .error .valueError
  else if scene_id.token_type ≠ TokenType.Identifier then .error .valueError
  else .ok ⟨module_id, scene_id⟩

/-- `SceneReference.__str__`: the scoped scene id as written in source. -/
def sceneRefStr (sr : SceneReference) : List Char :=
  match sr.module_id with
  | none => sr.scene_id.value
  | some m => m.value ++ "::".data ++ sr.scene_id.value

/-- The target of a select option: `SceneReference | FileReference`. -/
inductive SelectTarget where
  | scene (r : SceneReference)
  | file (r : FileReference)
  deriving DecidableEq, Repr

/-- `SelectOption`: optional condition, label, target. -/
structure SelectOption where
  condition : Option SelectCondition
  string_label : List Char
  target : SelectTarget
  deriving DecidableEq, Repr

/-- The `Directive` hierarchy as a closed sum: `FlavortextDirective`,
`SelectDirective`, `GetDirective`, `LoseDirective` (dispatch in the interpreter
is by the `directive_type` tag, which this sum reflects). -/
inductive Directive where
  | flavortext (text : Token)
  | select (options : List SelectOption)
  | get (item : Token)
  | lose (item : Token)
  deriving DecidableEq, Repr

/-- `FlavortextDirective.__init__`: the content must be a `String` token. -/
def mkFlavortextDirective (text : Token) : Except PyErr Directive :=
  if text.token_type ≠ TokenType.String then .error .valueError
  else .ok (.flavortext text)

/-- `GetDirective.__init__` (via `InventoryDirective`): item must be a `String`. -/
def mkGetDirective (item : Token) : Except PyErr Directive :=
  if item.token_type ≠ TokenType.String then .error .valueError
  else .ok (.get item)

/-- `LoseDirective.__init__` (via `InventoryDirective`): item must be a `String`. -/
def mkLoseDirective (item : Token) : Except PyErr Directive :=
  if item.token_type ≠ TokenType.String then .error .valueError
  else .ok (.lose item)

/-- `SelectDirective.__init__` stores its options with no validation. -/
def mkSelectDirective (options : List SelectOption) : Directive := .select options

/-- Is a directive a `SelectDirective` (Python `type(d) is SelectDirective`)? -/
def isSelectDirective : Directive → Bool
  | .select _ => true
  | _ => false

/-- `Scene`: an identifier plus its directives. -/
structure Scene where
  identifier : Token
  directives : List Directive
  deriving DecidableEq, Repr

/-- `Scene.__init__`: the identifier must be an `Identifier` token and the
directive list must contain exactly one `SelectDirective`. -/
def mkScene (identifier : Token) (directives : List Directive) : Except PyErr Scene :=
  if identifier.token_type ≠ TokenType.Identifier then .error .valueError
  else
    let selectCount := (directives.filter isSelectDirective).length
    if selectCount = 0 then .error .valueError
    else if selectCount > 1 then .error .valueError
    else .ok ⟨identifier, directives⟩

/-- `Module` of narrate_ast.py (named `NarModule` here because `Module` is taken
by Mathlib): a module id plus its scenes. -/
structure NarModule where
  module_id : Token
  scene_list : List Scene
  deriving DecidableEq, Repr

/-- `Module.__init__`: the module id must be an `Identifier` token.  No other
validation — in particular no duplicate-identifier check. -/
def mkNarModule (module_id : Token) (scenes : List Scene) : Except PyErr NarModule :=
  if module_id.token_type ≠ TokenType.Identifier then .error .valueError
  else .ok ⟨module_id, scenes⟩

/-- `FileContent`: the AST root. -/
structure FileContent where
  module_list : List NarModule
  scene_list : List Scene
  deriving DecidableEq, Repr

/-- `FileContent.__init__`: at least one module or scene; no duplicate check. -/
def mkFileContent (modules : List NarModule) (scenes : List Scene) :
    Except PyErr FileContent :=
  if modules = [] ∧ scenes = [] then .error .valueError
  else .ok ⟨modules, scenes⟩

/-- The inner scan of `FileContent.get_scene` over one module's scene list:
first scene whose identifier value matches. -/
def findSceneInList : List Scene → List Char → Option Scene
  | [], _ => none
  | sc :: rest, sid =>
    if sc.identifier.value = sid then some sc else findSceneInList rest sid

/-- The module scan of `FileContent.get_scene`: for each module whose id
matches, return the first matching scene inside it; when a matching module
contains no matching scene the scan FALLS THROUGH to later modules (the source
loop has no break after a module id match). -/
def findInModules : List NarModule → List Char → List Char → Option Scene
  | [], _, _ => none
  | m :: rest, module_id, scene_id =>
    if m.module_id.value = module_id then
      match findSceneInList m.scene_list scene_id with
      | some sc => some sc
      | none => findInModules rest module_id scene_id
    else findInModules rest module_id scene_id

/-- `FileContent.get_scene`: scoped ids are split on `::` and looked up through
the module list (the tuple unpacking raises `ValueError` when the split has more
than two parts); bare ids are looked up in the top-level scene list; a failed
lookup raises `ValueError`. -/
def getScene (fc : FileContent) (identifier : List Char) : Except PyErr Scene :=
  if hasScope identifier then
    match splitScope identifier with
    | [module_id, scene_id] =>
      match findInModules fc.module_list module_id scene_id with
      | some sc => .ok sc
      | none => .error .valueError
    | _ => .error .valueError
  else
    match findSceneInList fc.scene_list identifier with
    | some sc => .ok sc
    | none => .error .valueError

/-! ## narrate_parser.py -/

/-- The monad of possibly-diverging, possibly-raising computations:
`none` is divergence (a source loop that never finishes), `some (.error e)` is a
raised exception. -/
abbrev PyM (α : Type) : Type := ExceptT PyErr Option α

/-- Lift an exception-or-value into `PyM`. -/
def liftE {α : Type} (x : Except PyErr α) : PyM α := ExceptT.mk (some x)

/-- Fuel ran out: the modelled loop never terminates. -/
def diverge {α : Type} : PyM α := ExceptT.mk none

deriving instance DecidableEq for Except

/-- The parser's one token of lookahead.  The token stream is the list produced
by the tokenizer; past its end `get_next_token` keeps returning `Eof`, so the
head of an empty remainder is the `Eof` token. -/
def peek (ts : List Token) : Token := ts.headD eofToken

/-- `NarrateParser.consume`: advance past the current token when it has the
expected type, else raise `ParsingError`. -/
def consume (expected : TokenType) (ts : List Token) : Except PyErr (List Token) :=
  if (peek ts).token_type = expected then .ok ts.tail else .error .parsingError

/-- `NarrateParser.parse_select_target`. -/
def parseSelectTarget (ts : List Token) : Except PyErr (SelectTarget × List Token) := do
  if (peek ts).token_type = TokenType.Identifier then
    let top_level_id := peek ts
    let ts ← consume .Identifier ts
    if (peek ts).token_type = TokenType.Scope then
      let ts ← consume .Scope ts
      let scene_id := peek ts
      let ts ← consume .Identifier ts
      let r ← mkSceneReference (some top_level_id) scene_id
      return (.scene r, ts)
    else
      let r ← mkSceneReference none top_level_id
      return (.scene r, ts)
  else
    let ts ← consume .FileReference ts
    let ts ← consume .OpenParen ts
    let filename := (peek ts).value
    let ts ← consume .String ts
    let ts ← consume .CloseParen ts
    let ts ← consume .Scope ts
    let top_level_id := peek ts
    let ts ← consume .Identifier ts
    if (peek ts).token_type = TokenType.Scope then
      let ts ← consume .Scope ts
      let scene_id := peek ts
      let ts ← consume .Identifier ts
      let r ← mkFileReference filename (some top_level_id) scene_id
      return (.file r, ts)
    else
      let r ← mkFileReference filename none top_level_id
      return (.file r, ts)

/-- The `while ... is not TokenType.QuestionMark` loop of
`NarrateParser.parse_select_condition`, with the member (had it existed) already
resolved to `qm`. -/
def parseSelectConditionLoop :
    Nat → TokenType → List Token → List Token → List Token →
    PyM (SelectCondition × List Token)
  | fuel, qm, ts, included, excluded =>
    if (peek ts).token_type ≠ qm then
      match fuel with
      | 0 => diverge
      | f + 1 => do
        let ts ← liftE (consume .Has ts)
        let (included, excluded, ts) ←
          if (peek ts).token_type = TokenType.No then do
            let ts ← liftE (consume .No ts)
            pure (included, excluded ++ [peek ts], ts)
          else
            pure (included ++ [peek ts], excluded, ts)
        let ts ← liftE (consume .String ts)
        let ts ←
          if (peek ts).token_type ≠ qm then liftE (consume .Comma ts) else pure ts
        parseSelectConditionLoop f qm ts included excluded
    else do
      let ts ← liftE (consume qm ts)
      let sc ← liftE (mkSelectCondition included excluded)
      return (sc, ts)

/-- `NarrateParser.parse_select_condition`.  Its very first step — evaluating
the loop condition — reads the attribute `TokenType.QuestionMark`; tokens.py
declares no member of that name (the `?` member is called `Condition`), so the
lookup raises `AttributeError` before any token is consumed. -/
def parseSelectCondition (fuel : Nat) (ts : List Token) :
    PyM (SelectCondition × List Token) :=
  match TokenType.pyMember "QuestionMark".data with
  | none => liftE (.error .attributeError)
  | some qm => parseSelectConditionLoop fuel qm ts [] []

/-- `NarrateParser.parse_select_option`. -/
def parseSelectOption (fuel : Nat) (ts : List Token) : PyM (SelectOption × List Token) := do
  let (condition, ts) ←
    if (peek ts).token_type = TokenType.Has then do
      let (c, ts) ← parseSelectCondition fuel ts
      pure (some c, ts)
    else
      pure ((none : Option SelectCondition), ts)
  let string_label := (peek ts).value
  let ts ← liftE (consume .String ts)
  let ts ← liftE (consume .Arrow ts)
  let (target, ts) ← liftE (parseSelectTarget ts)
  return (⟨condition, string_label, target⟩, ts)

/-- The option loop of `NarrateParser.parse_select_directive`: parse options
while the current token is not the closing brace; after each option a comma is
consumed when present, and its absence breaks out of the loop. -/
def parseSelectOptionsLoop : Nat → List Token → PyM (List SelectOption × List Token)
  | fuel, ts =>
    if (peek ts).token_type = TokenType.CloseBrace then
      liftE (.ok ([], ts))
    else
      match fuel with
      | 0 => diverge
      | f + 1 => do
        let (opt, ts) ← parseSelectOption f ts
        if (peek ts).token_type = TokenType.Comma then
          let ts ← liftE (consume .Comma ts)
          let (opts, ts) ← parseSelectOptionsLoop f ts
          return (opt :: opts, ts)
        else
          return ([opt], ts)

/-- `NarrateParser.parse_select_directive`. -/
def parseSelectDirective (fuel : Nat) (ts : List Token) : PyM (Directive × List Token) := do
  let ts ← liftE (consume .Select ts)
  let ts ← liftE (consume .OpenBrace ts)
  let (options, ts) ← parseSelectOptionsLoop fuel ts
  let ts ← liftE (consume .CloseBrace ts)
  let ts ← liftE (consume .Semicolon ts)
  return (mkSelectDirective options, ts)

/-- `NarrateParser.parse_flavortext_directive`. -/
def parseFlavortextDirective (ts : List Token) : Except PyErr (Directive × List Token) := do
  let ts ← consume .Flavortext ts
  let ts ← consume .OpenBrace ts
  let text := peek ts
  let ts ← consume .String ts
  let ts ← consume .CloseBrace ts
  let ts ← consume .Semicolon ts
  let d ← mkFlavortextDirective text
  return (d, ts)

/-- `NarrateParser.parse_get_directive`. -/
def parseGetDirective (ts : List Token) : Except PyErr (Directive × List Token) := do
  let ts ← consume .Get ts
  let item := peek ts
  let ts ← consume .String ts
  let ts ← consume .Semicolon ts
  let d ← mkGetDirective item
  return (d, ts)

/-- `NarrateParser.parse_lose_directive`. -/
def parseLoseDirective (ts : List Token) : Except PyErr (Directive × List Token) := do
  let ts ← consume .Lose ts
  let item := peek ts
  let ts ← consume .String ts
  let ts ← consume .Semicolon ts
  let d ← mkLoseDirective item
  return (d, ts)

/-- `NarrateParser.parse_directive`: dispatch on the current token. -/
def parseDirective (fuel : Nat) (ts : List Token) : PyM (Directive × List Token) :=
  match (peek ts).token_type with
  | .Flavortext => liftE (parseFlavortextDirective ts)
  | .Select => parseSelectDirective fuel ts
  | .Get => liftE (parseGetDirective ts)
  | .Lose => liftE (parseLoseDirective ts)
  | _ => liftE (.error .parsingError)

/-- The directive loop of `NarrateParser.parse_scene`. -/
def parseSceneDirectivesLoop : Nat → List Token → PyM (List Directive × List Token)
  | fuel, ts =>
    if (peek ts).token_type ≠ TokenType.EndScene then
      match fuel with
      | 0 => diverge
      | f + 1 => do
        let (d, ts) ← parseDirective f ts
        let (ds, ts) ← parseSceneDirectivesLoop f ts
        return (d :: ds, ts)
    else liftE (.ok ([], ts))

/-- `NarrateParser.parse_scene`. -/
def parseScene (fuel : Nat) (ts : List Token) : PyM (Scene × List Token) := do
  let ts ← liftE (consume .Scene ts)
  let scene_id := peek ts
  let ts ← liftE (consume .Identifier ts)
  let ts ← liftE (consume .Colon ts)
  let (directives, ts) ← parseSceneDirectivesLoop fuel ts
  let ts ← liftE (consume .EndScene ts)
  let sc ← liftE (mkScene scene_id directives)
  return (sc, ts)

/-- The scene loop of `NarrateParser.parse_module`. -/
def parseModuleScenesLoop : Nat → List Token → PyM (List Scene × List Token)
  | fuel, ts =>
    if (peek ts).token_type ≠ TokenType.EndModule then
      match fuel with
      | 0 => diverge
      | f + 1 => do
        let (sc, ts) ← parseScene f ts
        let (scs, ts) ← parseModuleScenesLoop f ts
        return (sc :: scs, ts)
    else liftE (.ok ([], ts))

/-- `NarrateParser.parse_module`, including the closing-identifier check. -/
def parseModule (fuel : Nat) (ts : List Token) : PyM (NarModule × List Token) := do
  let ts ← liftE (consume .Module ts)
  let module_id := peek ts
  let ts ← liftE (consume .Identifier ts)
  let ts ← liftE (consume .Colon ts)
  let (scene_list, ts) ← parseModuleScenesLoop fuel ts
  let ts ← liftE (consume .EndModule ts)
  let closing_id := peek ts
  let ts ← liftE (consume .Identifier ts)
  if module_id.value ≠ closing_id.value then
    liftE (.error .parsingError)
  else do
    let m ← liftE (mkNarModule module_id scene_list)
    return (m, ts)

/-- The top-level loop of `NarrateParser.parse_file`. -/
def parseFileLoop :
    Nat → List Token → List Scene → List NarModule →
    PyM (List Scene × List NarModule × List Token)
  | fuel, ts, scenes, modules =>
    if (peek ts).token_type ≠ TokenType.Eof then
      match fuel with
      | 0 => diverge
      | f + 1 =>
        match (peek ts).token_type with
        | .Scene => do
          let (sc, ts) ← parseScene f ts
          parseFileLoop f ts (scenes ++ [sc]) modules
        | .Module => do
          let (m, ts) ← parseModule f ts
          parseFileLoop f ts scenes (modules ++ [m])
        | _ => liftE (.error .parsingError)
    else liftE (.ok (scenes, modules, ts))

/-- `NarrateParser.parse_file`: collect scenes and modules until `Eof`, then
build the `FileContent` root. -/
def parseFile (fuel : Nat) (ts : List Token) : PyM FileContent := do
  let (scenes, modules, _) ← parseFileLoop fuel ts [] []
  liftE (mkFileContent modules scenes)

/-! ## interpreter.py -/

/-- The file-loading collaborator: a path either has text contents or is
missing/unreadable. -/
def FileSystem : Type := List Char → Option (List Char)

/-- The session state owned by the `Interpreter` class. -/
structure InterpState where
  src_filename : List Char
  ast : FileContent
  scene_id : List Char
  inventory : List (List Char)
  deriving DecidableEq, Repr

/-- The `Interpreter.inventory_lower` property. -/
def inventoryLower (inventory : List (List Char)) : List (List Char) :=
  inventory.map pyLower

/-- `Interpreter.set_interpreter_context`: read the file, tokenize and parse it,
and move to the given scene.  The inventory is not touched. -/
def setInterpreterContext (fuel : Nat) (fs : FileSystem)
    (inventory : List (List Char)) (src_filename scene_id : List Char) :
    PyM InterpState := do
  let text ← liftE
    (match fs src_filename with
     | some t => .ok t
     | none => .error .fileNotFoundError)
  let toks ← ExceptT.mk (tokenize fuel text)
  let ast ← parseFile fuel toks
  return ⟨src_filename, ast, scene_id, inventory⟩

/-- `Interpreter.evaluate_has_directive`: an absent condition is visible; else
every included item's lowercase form must be in the lowercased inventory and no
excluded item's lowercase form may be. -/
def evaluateHasDirective (inventory : List (List Char)) (hd : Option SelectCondition) :
    Bool :=
  match hd with
  | none => true
  | some hd =>
    let inv := inventoryLower inventory
    let included := hd.included.map (fun t => pyLower t.value)
    let excluded := hd.excluded.map (fun t => pyLower t.value)
    included.all (fun item => inv.contains item) &&
      excluded.all (fun item => !inv.contains item)

/-- The condition-filtering step of `Interpreter.execute_select_directive`. -/
def visibleOptions (inventory : List (List Char)) (options : List SelectOption) :
    List SelectOption :=
  options.filter (fun o => evaluateHasDirective inventory o.condition)

/-- The lines printed by `execute_select_directive` before the prompt:
`Options:` and the 1-indexed labels of the visible options. -/
def optionLines (visible : List SelectOption) : List (List Char) :=
  "Options:".data ::
    visible.enum.map (fun p => ('[' :: (Nat.repr (p.1 + 1)).data) ++ (']' :: ' ' :: p.2.string_label))

/-- The selection step of `execute_select_directive`:
`selection = visible_options[int(input) - 1]`, with Python list indexing. -/
def selectVisible (visible : List SelectOption) (userInput : Int) :
    Except PyErr SelectOption :=
  pyGetItem visible (userInput - 1)

/-- `Interpreter.execute_select_directive` for a player whose typed line is the
integer `userInput`: filter the options, print the menu, select, and resolve the
target.  Returns the `game_over` flag, the updated session state, and the lines
printed. -/
def executeSelectDirective (fuel : Nat) (fs : FileSystem) (st : InterpState)
    (options : List SelectOption) (userInput : Int) :
    PyM (Bool × InterpState × List (List Char)) := do
  let visible := visibleOptions st.inventory options
  let out := optionLines visible
  let selection ← liftE (selectVisible visible userInput)
  match selection.target with
  | .scene sr =>
    if sceneRefStr sr = "exit".data then
      return (true, st, out)
    else
      return (false, { st with scene_id := sceneRefStr sr }, out)
  | .file fr => do
    let st1 ← setInterpreterContext fuel fs st.inventory fr.filename (scopedSceneId fr)
    return (false, st1, out)

/-- The loop state of the directive loop in `Interpreter.execute_scene`:
the inventory, the lines printed so far, and the captured select directive. -/
structure SceneExecAcc where
  inventory : List (List Char)
  output : List (List Char)
  select_directive : Option (List SelectOption)
  deriving DecidableEq, Repr

/-- One iteration of the directive loop of `Interpreter.execute_scene`:
`get` appends the item verbatim; `lose` removes by `list.remove` (exact match)
guarded by a case-insensitive membership test; `flavortext` prints; `select` is
captured for later. -/
def execDirectiveStep (acc : SceneExecAcc) (d : Directive) : Except PyErr SceneExecAcc :=
  match d with
  | .get item => .ok { acc with inventory := acc.inventory ++ [item.value] }
  | .lose item =>
    if (inventoryLower acc.inventory).contains (pyLower item.value) then
      match pyRemove acc.inventory item.value with
      | .ok inv => .ok { acc with inventory := inv }
      | .error e => .error e
    else .ok acc
  | .flavortext text => .ok { acc with output := acc.output ++ [text.value] }
  | .select options => .ok { acc with select_directive := some options }

/-- The whole directive loop of `Interpreter.execute_scene`, in declared order. -/
def execDirectives : List Directive → SceneExecAcc → Except PyErr SceneExecAcc
  | [], acc => .ok acc
  | d :: rest, acc =>
    match execDirectiveStep acc d with
    | .ok acc1 => execDirectives rest acc1
    | .error e => .error e

/-- The lines printed by the `game_over` branch of `execute_scene`:
the banner, then one `* item` line per inventory entry, in order. -/
def gameOverLines (inventory : List (List Char)) : List (List Char) :=
  "Game over. Your inventory contents:".data ::
    inventory.map (fun item => '*' :: ' ' :: item)

/-- The result of running one scene: either the session halted (`sys.exit(0)`)
or it is still running in a new state.  Both carry the printed lines. -/
inductive ExecOutcome where
  | exited (output : List (List Char))
  | running (st : InterpState) (output : List (List Char))
  deriving DecidableEq, Repr

/-- `Interpreter.execute_scene` driven by one line of player input: look the
current scene up, run its directives in order, then run the captured select
directive (`assert` failure if none was captured); on `game_over` print the
inventory and halt. -/
def executeScene (fuel : Nat) (fs : FileSystem) (st : InterpState) (userInput : Int) :
    PyM ExecOutcome := do
  let scene ← liftE (getScene st.ast st.scene_id)
  let acc ← liftE (execDirectives scene.directives ⟨st.inventory, [], none⟩)
  match acc.select_directive with
  | none => liftE (.error .assertionError)
  | some options => do
    let st1 : InterpState := { st with inventory := acc.inventory }
    let (game_over, st2, out2) ← executeSelectDirective fuel fs st1 options userInput
    if game_over then
      return .exited (acc.output ++ out2 ++ gameOverLines st2.inventory)
    else
      return .running st2 (acc.output ++ out2)

/-! ## Spec-side search functions and concrete instances used by the theorems -/

/-- Spec-side description of scene search: the first scene of the list whose
identifier matches.  Used to compare `get_scene` against the specified lookup
order. -/
def firstMatchingScene (scs : List Scene) (sid : List Char) : Option Scene :=
  scs.find? (fun sc => sc.identifier.value = sid)

/-- Spec-side description of the qualified scan: the scene lists of ALL modules
whose identifier matches, concatenated in declaration order. -/
def matchingModulesScenes (ms : List NarModule) (mid : List Char) : List Scene :=
  (ms.filter (fun m => m.module_id.value = mid)).flatMap (fun m => m.scene_list)

/-- An `Identifier` token with the given spelling. -/
def tkId (s : String) : Token := ⟨.Identifier, s.data⟩

/-- A `String` token with the given payload. -/
def tkStr (s : String) : Token := ⟨.String, s.data⟩

/-- An unconditional option whose target is the bare reserved id `exit`. -/
def exitTargetOption : SelectOption :=
  ⟨none, "Leave".data, .scene ⟨none, tkId "exit"⟩⟩

/-- An unconditional option whose target is the module-qualified id `m::exit`. -/
def modExitTargetOption : SelectOption :=
  ⟨none, "Go".data, .scene ⟨some (tkId "m"), tkId "exit"⟩⟩

/-- An unconditional option whose target is `@file("f.nar")::m`. -/
def fileTargetOption : SelectOption :=
  ⟨none, "Door".data, .file ⟨"f.nar".data, none, tkId "m"⟩⟩

/-- One-scene file whose select offers only the `exit` option. -/
def fcW : FileContent := ⟨[], [⟨tkId "main", [.select [exitTargetOption]]⟩]⟩

/-- A session sitting at the scene `main` of `fcW` with an empty inventory. -/
def stW : InterpState := ⟨"w.nar".data, fcW, "main".data, []⟩

/-- One-scene file whose select offers the `m::exit` option. -/
def fcW2 : FileContent := ⟨[], [⟨tkId "main", [.select [modExitTargetOption]]⟩]⟩

/-- A session sitting at the scene `main` of `fcW2`, with one inventory item. -/
def stW2 : InterpState := ⟨"w.nar".data, fcW2, "main".data, ["key".data]⟩

/-- One-scene file whose select offers the `@file("f.nar")::m` option. -/
def fcW3 : FileContent := ⟨[], [⟨tkId "main", [.select [fileTargetOption]]⟩]⟩

/-- A session sitting at the scene `main` of `fcW3`, with one inventory item. -/
def stW3 : InterpState := ⟨"w.nar".data, fcW3, "main".data, ["key".data]⟩

/-- A file system collaborator with no readable files. -/
def fsNone : FileSystem := fun _ => none

/-- A file system holding one file `f.nar` with a single scene `m`. -/
def fsW : FileSystem := fun name =>
  if name = "f.nar".data then
    some "@scene m:select\x7b\"a\"=>exit\x7d;@end-scene".data
  else none

/-- The AST that parsing `f.nar` of `fsW` produces. -/
def fcParsed : FileContent :=
  ⟨[], [⟨tkId "m", [.select [⟨none, "a".data, .scene ⟨none, tkId "exit"⟩⟩]]⟩]⟩

/-- The token stream of `select { "a" => exit , } ;` — option list with an extra
trailing comma before the closing brace. -/
def c8TrailingToks : List Token :=
  [mkKwToken .Select, mkKwToken .OpenBrace, tkStr "a", mkKwToken .Arrow, tkId "exit",
   mkKwToken .Comma, mkKwToken .CloseBrace, mkKwToken .Semicolon]

/-- A token stream declaring two scenes both named `s` and two modules both
named `m` (each module holding a scene `t`). -/
def dupToks : List Token :=
  [mkKwToken .Scene, tkId "s", mkKwToken .Colon,
     mkKwToken .Select, mkKwToken .OpenBrace, tkStr "a", mkKwToken .Arrow, tkId "exit",
     mkKwToken .CloseBrace, mkKwToken .Semicolon, mkKwToken .EndScene,
   mkKwToken .Scene, tkId "s", mkKwToken .Colon,
     mkKwToken .Select, mkKwToken .OpenBrace, tkStr "b", mkKwToken .Arrow, tkId "exit",
     mkKwToken .CloseBrace, mkKwToken .Semicolon, mkKwToken .EndScene,
   mkKwToken .Module, tkId "m", mkKwToken .Colon,
     mkKwToken .Scene, tkId "t", mkKwToken .Colon,
       mkKwToken .Select, mkKwToken .OpenBrace, tkStr "c", mkKwToken .Arrow, tkId "exit",
       mkKwToken .CloseBrace, mkKwToken .Semicolon, mkKwToken .EndScene,
     mkKwToken .EndModule, tkId "m",
   mkKwToken .Module, tkId "m", mkKwToken .Colon,
     mkKwToken .Scene, tkId "t", mkKwToken .Colon,
       mkKwToken .Select, mkKwToken .OpenBrace, tkStr "d", mkKwToken .Arrow, tkId "exit",
       mkKwToken .CloseBrace, mkKwToken .Semicolon, mkKwToken .EndScene,
     mkKwToken .EndModule, tkId "m",
   eofToken]

/-- The `FileContent` that parsing `dupToks` produces: duplicate scene ids at
the top level and duplicate module ids, none rejected. -/
def dupFc : FileContent :=
  ⟨[⟨tkId "m", [⟨tkId "t", [.select [⟨none, "c".data, .scene ⟨none, tkId "exit"⟩⟩]]⟩]⟩,
    ⟨tkId "m", [⟨tkId "t", [.select [⟨none, "d".data, .scene ⟨none, tkId "exit"⟩⟩]]⟩]⟩],
   [⟨tkId "s", [.select [⟨none, "a".data, .scene ⟨none, tkId "exit"⟩⟩]]⟩,
    ⟨tkId "s", [.select [⟨none, "b".data, .scene ⟨none, tkId "exit"⟩⟩]]⟩]⟩

/-- A scene named `a`. -/
def scA : Scene := ⟨tkId "a", [.select [exitTargetOption]]⟩

/-- A scene named `b`. -/
def scB : Scene := ⟨tkId "b", [.select [exitTargetOption]]⟩

/-- The first of two modules named `m`; it holds only the scene `a`. -/
def modMA : NarModule := ⟨tkId "m", [scA]⟩

/-- The second of two modules named `m`; it holds only the scene `b`. -/
def modMB : NarModule := ⟨tkId "m", [scB]⟩

/-- A file with two modules both named `m`: the first holds only scene `a`, the
second only scene `b`. -/
def fcCx : FileContent := ⟨[modMA, modMB], []⟩

/-! ## Theorems -/

set_option maxRecDepth 100000

theorem liftE_ok_bind {α β : Type} (a : α) (f : α → PyM β) :
    (liftE (.ok a) >>= f) = f a := rfl

theorem liftE_error_bind {α β : Type} (e : PyErr) (f : α → PyM β) :
    (liftE (.error e) >>= f) = liftE (.error e) := rfl

theorem pym_pure_eq {α : Type} (a : α) : (pure a : PyM α) = liftE (.ok a) := rfl

/-- C1: a select option beginning with a condition never yields a
`SelectCondition`: resolving the loop bound `TokenType.QuestionMark` raises
`AttributeError` on every token stream and every fuel bound, so in particular
the parse never returns the written items and the raised exception is not a
`ParsingError`. -/
theorem c1_parse_select_condition_always_attribute_error (fuel : Nat) (ts : List Token) :
    parseSelectCondition fuel ts = liftE (.error .attributeError) := rfl

/-- C9: starting from an empty inventory, `Get("X")`, `Get("x")`, `Lose("X")`
leaves exactly one entry, equal to `"x"`. -/
theorem c9_get_get_lose_case_insensitive :
    execDirectives
      [Directive.get (tkStr "X"), Directive.get (tkStr "x"), Directive.lose (tkStr "X")]
      ⟨[], [], none⟩ = .ok ⟨["x".data], [], none⟩ := rfl

/-- C3, counterexample: with inventory `["A"]`, the directive `Lose("a")` has a
case-insensitive match (so the claim says the entry is removed and no error is
ever raised), yet the code raises `ValueError`: the guard passes but
`list.remove("a")` finds no exact match. -/
theorem c3_counterexample :
    execDirectiveStep ⟨["A".data], [], none⟩ (Directive.lose (tkStr "a")) =
      .error .valueError := rfl

/-- C4, counterexample: with one visible option, the out-of-range selection
index 0 does not crash: Python indexing maps `0 - 1 = -1` to the LAST visible
option, which is selected (here the `exit` option, so the session ends
normally). -/
theorem c4_counterexample :
    executeSelectDirective 0 fsNone stW [exitTargetOption] 0 =
      liftE (.ok (true, stW, optionLines [exitTargetOption])) := rfl

/-- C8, counterexample: an option list with an extra trailing comma before the
closing brace is parsed successfully (no `ParsingError`): after the comma is
consumed the loop re-checks the brace and exits. -/
theorem c8_counterexample :
    parseSelectDirective 10 c8TrailingToks =
      liftE (.ok (Directive.select [⟨none, "a".data, .scene ⟨none, tkId "exit"⟩⟩], [])) := rfl

/-- C10, counterexample: looking `m::b` up in a file whose first module `m`
has no scene `b` but whose second module `m` does, `get_scene` returns the
scene of the SECOND module — not a scene of the first matching module, and not
an error. -/
theorem c10_counterexample :
    getScene fcCx "m::b".data = .ok scB ∧
    fcCx.module_list = [modMA, modMB] ∧
    modMA.module_id.value = "m".data ∧
    scB ∉ modMA.scene_list := by
  refine ⟨rfl, rfl, rfl, ?_⟩
  decide

theorem getNextToken_a1_first (f : Nat) :
    getNextToken (f + 1) (mkLex "a1".data) =
      some (.ok (⟨.Identifier, "a".data⟩, ⟨"a1".data, 1, 1⟩)) := by
  simp [getNextToken, tokenizeIdentifierOrDirective, identAux, mkLex, currentChar, advance]

theorem getNextToken_a1_stuck (f : Nat) :
    getNextToken f ⟨"a1".data, 1, 1⟩ =
      some (.ok (⟨.Identifier, []⟩, ⟨"a1".data, 1, 1⟩)) := by
  simp [getNextToken, tokenizeIdentifierOrDirective, identAux, currentChar]

theorem tokenizeAux_a1_stuck (f : Nat) :
    ∀ acc, tokenizeAux f ⟨"a1".data, 1, 1⟩ acc = none := by
  induction f with
  | zero => intro acc; rfl
  | succ n ih =>
    intro acc
    rw [tokenizeAux, getNextToken_a1_stuck]
    simp [ih]

/-- C2: the lexer does NOT consume a maximal run of letters, digits and dashes:
on the source `a1` it stops at the digit, emitting `Identifier "a"`, and at the
digit position it then emits an empty `Identifier` token without advancing, so
tokenization of the digit-containing identifier `a1` never terminates instead
of producing a single `Identifier` token carrying `a1`. -/
theorem c2_digit_breaks_identifier_lexing :
    getNextToken 10 (mkLex "a1".data) =
      some (.ok (⟨.Identifier, "a".data⟩, ⟨"a1".data, 1, 1⟩)) ∧
    getNextToken 10 ⟨"a1".data, 1, 1⟩ =
      some (.ok (⟨.Identifier, []⟩, ⟨"a1".data, 1, 1⟩)) ∧
    ∀ fuel, tokenize fuel "a1".data = none := by
  refine ⟨rfl, rfl, ?_⟩
  intro fuel
  cases fuel with
  | zero => rfl
  | succ n =>
    show tokenizeAux (n + 1) (mkLex "a1".data) [] = none
    rw [tokenizeAux, getNextToken_a1_first]
    exact tokenizeAux_a1_stuck n _

theorem getNextToken_digit_stuck (f : Nat) :
    getNextToken f (mkLex "0".data) =
      some (.ok (⟨.Identifier, []⟩, mkLex "0".data)) := by
  simp [getNextToken, tokenizeIdentifierOrDirective, identAux, mkLex, currentChar]

theorem tokenizeAux_digit_stuck (f : Nat) :
    ∀ acc, tokenizeAux f (mkLex "0".data) acc = none := by
  induction f with
  | zero => intro acc; rfl
  | succ n ih =>
    intro acc
    rw [tokenizeAux, getNextToken_digit_stuck]
    simp [ih]

/-- C7: `tokenize` does not terminate on every lexically valid source text: on
the source `0` — a well-formed one-character identifier per the lexical
grammar, with no strings or comments at all — it returns no token list under
ANY fuel bound (the identifier scanner consumes nothing at a digit and returns
an empty `Identifier` token without advancing the cursor, so the collecting
loop never reaches `Eof`). -/
theorem c7_tokenize_never_terminates_on_digit :
    ∀ fuel, tokenize fuel "0".data = none :=
  fun fuel => tokenizeAux_digit_stuck fuel []

theorem exists_first_split {α : Type} [DecidableEq α] {l : List α} {v : α} (h : v ∈ l) :
    ∃ pre post, l = pre ++ v :: post ∧ v ∉ pre := by
  induction l with
  | nil => cases h
  | cons x rest ih =>
    by_cases hx : x = v
    · exact ⟨[], rest, by simp [hx], by simp⟩
    · have hv : v ∈ rest := by
        rcases List.mem_cons.mp h with h1 | h1
        · exact absurd h1.symm hx
        · exact h1
      rcases ih hv with ⟨pre, post, hEq, hPre⟩
      refine ⟨x :: pre, post, by rw [hEq]; rfl, ?_⟩
      intro hm
      rcases List.mem_cons.mp hm with h1 | h1
      · exact hx h1.symm
      · exact hPre h1

theorem pyRemove_of_not_mem {α : Type} [DecidableEq α] {l : List α} {v : α} (h : v ∉ l) :
    pyRemove l v = .error .valueError := by
  induction l with
  | nil => rfl
  | cons x rest ih =>
    have hx : ¬ x = v := fun hh => h (hh ▸ List.mem_cons_self x rest)
    have hrest : v ∉ rest := fun hh => h (List.mem_cons_of_mem _ hh)
    simp [pyRemove, hx, ih hrest]

theorem pyRemove_first_split {α : Type} [DecidableEq α] (pre post : List α) (v : α)
    (hpre : v ∉ pre) : pyRemove (pre ++ v :: post) v = .ok (pre ++ post) := by
  induction pre with
  | nil => simp [pyRemove]
  | cons x rest ih =>
    have hx : ¬ x = v := fun hh => hpre (hh ▸ List.mem_cons_self x rest)
    have hrest : v ∉ rest := fun hh => hpre (List.mem_cons_of_mem _ hh)
    simp [pyRemove, hx, ih hrest]

/-- C3, amended: executing `Lose(item)` (a) is a no-op when no inventory entry
matches case-insensitively; (b) when an entry EXACTLY equal to `item` exists, it
removes the first exactly-equal entry (not the first case-insensitive match),
leaving all other entries unchanged and case-preserved; (c) when an entry
matches case-insensitively but no entry is exactly equal, it raises
`ValueError`. -/
theorem c3_amended (inv output : List (List Char)) (sd : Option (List SelectOption))
    (item : Token) :
    (pyLower item.value ∉ inv.map pyLower →
      execDirectiveStep ⟨inv, output, sd⟩ (Directive.lose item) = .ok ⟨inv, output, sd⟩) ∧
    (item.value ∈ inv →
      ∃ pre post, inv = pre ++ item.value :: post ∧ item.value ∉ pre ∧
        execDirectiveStep ⟨inv, output, sd⟩ (Directive.lose item) = .ok ⟨pre ++ post, output, sd⟩) ∧
    (pyLower item.value ∈ inv.map pyLower → item.value ∉ inv →
      execDirectiveStep ⟨inv, output, sd⟩ (Directive.lose item) = .error .valueError) := by
  refine ⟨?_, ?_, ?_⟩
  · intro h
    simp [execDirectiveStep, inventoryLower, List.contains, List.elem_iff, h]
  · intro h
    obtain ⟨pre, post, hEq, hPre⟩ := exists_first_split h
    refine ⟨pre, post, hEq, hPre, ?_⟩
    have hmem : pyLower item.value ∈ inv.map pyLower := List.mem_map_of_mem _ h
    subst hEq
    simp [execDirectiveStep, inventoryLower, List.contains, List.elem_iff, hmem,
          pyRemove_first_split _ _ _ hPre]
  · intro h1 h2
    simp [execDirectiveStep, inventoryLower, List.contains, List.elem_iff, h1,
          pyRemove_of_not_mem h2]

theorem c3_amended_witness :
    (execDirectiveStep ⟨["b".data], [], none⟩ (Directive.lose (tkStr "a")) =
       .ok ⟨["b".data], [], none⟩) ∧
    (∃ pre post, ["A".data, "a".data] = pre ++ "a".data :: post ∧ "a".data ∉ pre ∧
       execDirectiveStep ⟨["A".data, "a".data], [], none⟩ (Directive.lose (tkStr "a")) =
         .ok ⟨pre ++ post, [], none⟩) ∧
    (execDirectiveStep ⟨["A".data], [], none⟩ (Directive.lose (tkStr "a")) =
       .error .valueError) :=
  ⟨(c3_amended ["b".data] [] none (tkStr "a")).1 (by decide),
   (c3_amended ["A".data, "a".data] [] none (tkStr "a")).2.1 (by decide),
   (c3_amended ["A".data] [] none (tkStr "a")).2.2 (by decide) (by decide)⟩

/-- C4, amended: for a visible-option list of length `count`, an integer
selection index in `[1, count]` selects the index-th visible option; an index
in `[1 - count, 0]` does NOT crash but also selects a visible option (Python
negative indexing: index `i` maps to position `count + i - 1`); only an index
below `1 - count` or above `count` raises (IndexError). -/
theorem c4_amended (fuel : Nat) (fs : FileSystem) (st : InterpState)
    (options : List SelectOption) (i : Int) :
    (1 ≤ i → i ≤ ((visibleOptions st.inventory options).length : Int) →
      ∃ opt, (visibleOptions st.inventory options).get? (i - 1).toNat = some opt ∧
        selectVisible (visibleOptions st.inventory options) i = .ok opt) ∧
    (1 - ((visibleOptions st.inventory options).length : Int) ≤ i → i ≤ 0 →
      ∃ opt,
        (visibleOptions st.inventory options).get?
          (((visibleOptions st.inventory options).length : Int) + (i - 1)).toNat = some opt ∧
        selectVisible (visibleOptions st.inventory options) i = .ok opt) ∧
    ((i < 1 - ((visibleOptions st.inventory options).length : Int) ∨
        ((visibleOptions st.inventory options).length : Int) < i) →
      executeSelectDirective fuel fs st options i = liftE (.error .indexError)) := by
  set v := visibleOptions st.inventory options with hv
  refine ⟨?_, ?_, ?_⟩
  · intro h1 h2
    have hj : ¬ (i - 1 < 0) := by omega
    have h0 : (0 : Int) ≤ i - 1 := by omega
    have hlt : (i - 1).toNat < v.length := by omega
    refine ⟨v.get ⟨(i - 1).toNat, hlt⟩, List.get?_eq_get hlt, ?_⟩
    simp only [selectVisible, pyGetItem]
    rw [if_neg hj, if_pos h0, List.get?_eq_get hlt]
  · intro h1 h2
    have hj : i - 1 < 0 := by omega
    have h0 : (0 : Int) ≤ (v.length : Int) + (i - 1) := by omega
    have hlt : ((v.length : Int) + (i - 1)).toNat < v.length := by omega
    refine ⟨v.get ⟨((v.length : Int) + (i - 1)).toNat, hlt⟩, List.get?_eq_get hlt, ?_⟩
    simp only [selectVisible, pyGetItem]
    rw [if_pos hj, if_pos h0, List.get?_eq_get hlt]
  · intro h
    have hsel : selectVisible v i = .error .indexError := by
      simp only [selectVisible, pyGetItem]
      rcases h with h | h
      · have hj : i - 1 < 0 := by omega
        have h0 : ¬ ((0 : Int) ≤ (v.length : Int) + (i - 1)) := by omega
        rw [if_pos hj, if_neg h0]
      · have hj : ¬ (i - 1 < 0) := by omega
        have h0 : (0 : Int) ≤ i - 1 := by omega
        have hge : v.length ≤ (i - 1).toNat := by omega
        rw [if_neg hj, if_pos h0, List.get?_eq_none.mpr hge]
    show executeSelectDirective fuel fs st options i = liftE (.error .indexError)
    rw [executeSelectDirective]
    rw [← hv, hsel]
    rfl

theorem c4_amended_witness :
    (∃ opt, (visibleOptions stW.inventory [exitTargetOption]).get? ((1 : Int) - 1).toNat = some opt ∧
       selectVisible (visibleOptions stW.inventory [exitTargetOption]) 1 = .ok opt) ∧
    (∃ opt,
       (visibleOptions stW.inventory [exitTargetOption]).get?
         (((visibleOptions stW.inventory [exitTargetOption]).length : Int) + ((0 : Int) - 1)).toNat = some opt ∧
       selectVisible (visibleOptions stW.inventory [exitTargetOption]) 0 = .ok opt) ∧
    executeSelectDirective 0 fsNone stW [exitTargetOption] 2 = liftE (.error .indexError) :=
  ⟨(c4_amended 0 fsNone stW [exitTargetOption] 1).1 (by decide) (by decide),
   (c4_amended 0 fsNone stW [exitTargetOption] 0).2.1 (by decide) (by decide),
   (c4_amended 0 fsNone stW [exitTargetOption] 2).2.2 (by decide)⟩

theorem sceneRefStr_scoped_ne_exit (m tok : Token) :
    sceneRefStr ⟨some m, tok⟩ ≠ "exit".data := by
  intro h
  have hc : (':' : Char) ∈ sceneRefStr ⟨some m, tok⟩ := by
    have hm : (':' : Char) ∈ "::".data := by decide
    exact List.mem_append.mpr (Or.inl (List.mem_append.mpr (Or.inr hm)))
  rw [h] at hc
  exact absurd hc (by decide)


/-- C5: when the selected option's target is a `SceneReference` whose scoped id
is the bare identifier `exit`, running the scene always ends the session: no
scene lookup of `exit` is performed, the outcome is `exited`, and each inventory
item is emitted exactly once in insertion order after the game-over banner;
a module-qualified target `m::exit` is NOT terminal — the session stays running
with the scoped id `m::exit` as the next scene. -/
theorem c5_exit_terminates (fuel : Nat) (fs : FileSystem) (st : InterpState) (i : Int)
    (sc : Scene) (options : List SelectOption) (sel : SelectOption)
    (h1 : getScene st.ast st.scene_id = .ok sc)
    (h2 : sc.directives = [Directive.select options])
    (h3 : selectVisible (visibleOptions st.inventory options) i = .ok sel) :
    (∀ tok, sel.target = .scene ⟨none, tok⟩ → tok.value = "exit".data →
      executeScene fuel fs st i =
        liftE (.ok (.exited (optionLines (visibleOptions st.inventory options) ++
          ("Game over. Your inventory contents:".data ::
            st.inventory.map (fun item => '*' :: ' ' :: item)))))) ∧
    (∀ m tok, sel.target = .scene ⟨some m, tok⟩ →
      executeScene fuel fs st i =
        liftE (.ok (.running { st with scene_id := m.value ++ "::".data ++ tok.value }
          (optionLines (visibleOptions st.inventory options))))) := by
  have hst1 : ({ st with inventory := st.inventory } : InterpState) = st := rfl
  constructor
  · intro tok htgt hval
    rw [executeScene, h1, liftE_ok_bind, h2]
    show (liftE (execDirectives [Directive.select options] ⟨st.inventory, [], none⟩) >>= _) = _
    rw [show execDirectives [Directive.select options] ⟨st.inventory, [], none⟩ =
          .ok ⟨st.inventory, [], some options⟩ from rfl]
    rw [liftE_ok_bind]
    show (executeSelectDirective fuel fs st options i >>= _) = _
    rw [executeSelectDirective]
    rw [h3, liftE_ok_bind, htgt]
    have hcond : sceneRefStr ⟨none, tok⟩ = "exit".data := by simp [sceneRefStr, hval]
    show ((if sceneRefStr ⟨none, tok⟩ = "exit".data then _ else _ : PyM _) >>= _) = _
    rw [if_pos hcond]
    show (pure (true, st, optionLines (visibleOptions st.inventory options)) >>= _) = _
    rw [pym_pure_eq, liftE_ok_bind]
    simp [gameOverLines, pym_pure_eq]
  · intro m tok htgt
    rw [executeScene, h1, liftE_ok_bind, h2]
    show (liftE (execDirectives [Directive.select options] ⟨st.inventory, [], none⟩) >>= _) = _
    rw [show execDirectives [Directive.select options] ⟨st.inventory, [], none⟩ =
          .ok ⟨st.inventory, [], some options⟩ from rfl]
    rw [liftE_ok_bind]
    show (executeSelectDirective fuel fs st options i >>= _) = _
    rw [executeSelectDirective]
    rw [h3, liftE_ok_bind, htgt]
    show ((if sceneRefStr ⟨some m, tok⟩ = "exit".data then _ else _ : PyM _) >>= _) = _
    rw [if_neg (sceneRefStr_scoped_ne_exit m tok)]
    show (pure (false, { st with scene_id := sceneRefStr ⟨some m, tok⟩ },
            optionLines (visibleOptions st.inventory options)) >>= _) = _
    rw [pym_pure_eq, liftE_ok_bind]
    simp [sceneRefStr, pym_pure_eq]

theorem c5_exit_terminates_witness :
    executeScene 0 fsNone stW 1 =
      liftE (.ok (.exited (optionLines (visibleOptions stW.inventory [exitTargetOption]) ++
        ("Game over. Your inventory contents:".data ::
          stW.inventory.map (fun item => '*' :: ' ' :: item))))) ∧
    executeScene 0 fsNone stW2 1 =
      liftE (.ok (.running
        { stW2 with scene_id := (tkId "m").value ++ "::".data ++ (tkId "exit").value }
        (optionLines (visibleOptions stW2.inventory [modExitTargetOption])))) :=
  ⟨(c5_exit_terminates 0 fsNone stW 1 ⟨tkId "main", [.select [exitTargetOption]]⟩
      [exitTargetOption] exitTargetOption rfl rfl rfl).1 (tkId "exit") rfl rfl,
   (c5_exit_terminates 0 fsNone stW2 1 ⟨tkId "main", [.select [modExitTargetOption]]⟩
      [modExitTargetOption] modExitTargetOption rfl rfl rfl).2 (tkId "m") (tkId "exit") rfl⟩

theorem divergence_bind {α β : Type} (f : α → PyM β) :
    ((ExceptT.mk none : PyM α) >>= f) = ExceptT.mk none := rfl


/-- C6: when the selected option's target is a `FileReference` and the
referenced file loads, tokenizes and parses successfully, the session's
filename, AST and scoped scene id are replaced by ones derived from the
reference (the filename written in it, the parse of the loaded text, and its
scoped scene id), the session stays running, and the inventory sequence is
identical to its value before the switch. -/
theorem c6_file_reference_switch (fuel : Nat) (fs : FileSystem) (st : InterpState)
    (options : List SelectOption) (i : Int) (sel : SelectOption) (fr : FileReference)
    (st2 : InterpState)
    (h3 : selectVisible (visibleOptions st.inventory options) i = .ok sel)
    (h4 : sel.target = .file fr)
    (h5 : setInterpreterContext fuel fs st.inventory fr.filename (scopedSceneId fr) =
            liftE (.ok st2)) :
    executeSelectDirective fuel fs st options i =
      liftE (.ok (false, st2, optionLines (visibleOptions st.inventory options))) ∧
    st2.src_filename = fr.filename ∧
    st2.scene_id = scopedSceneId fr ∧
    st2.inventory = st.inventory ∧
    ∃ text toks, fs fr.filename = some text ∧
      tokenize fuel text = some (.ok toks) ∧
      parseFile fuel toks = liftE (.ok st2.ast) := by
  have hmain : executeSelectDirective fuel fs st options i =
      liftE (.ok (false, st2, optionLines (visibleOptions st.inventory options))) := by
    rw [executeSelectDirective, h3, liftE_ok_bind, h4]
    show (setInterpreterContext fuel fs st.inventory fr.filename (scopedSceneId fr) >>= _) = _
    rw [h5, liftE_ok_bind, pym_pure_eq]
  have hinv : st2 = ⟨fr.filename, st2.ast, scopedSceneId fr, st.inventory⟩ ∧
      ∃ text toks, fs fr.filename = some text ∧
        tokenize fuel text = some (.ok toks) ∧
        parseFile fuel toks = liftE (.ok st2.ast) := by
    rw [setInterpreterContext] at h5
    cases hfs : fs fr.filename with
    | none =>
      rw [hfs] at h5
      rw [show (liftE (match (none : Option (List Char)) with
            | some t => Except.ok t
            | none => Except.error PyErr.fileNotFoundError) : PyM (List Char)) =
          liftE (.error .fileNotFoundError) from rfl] at h5
      rw [liftE_error_bind] at h5
      exact Except.noConfusion (Option.some.inj h5)
    | some text =>
      rw [hfs] at h5
      rw [show (liftE (match (some text : Option (List Char)) with
            | some t => Except.ok t
            | none => Except.error PyErr.fileNotFoundError) : PyM (List Char)) =
          liftE (.ok text) from rfl] at h5
      rw [liftE_ok_bind] at h5
      cases htokz : tokenize fuel text with
      | none =>
        rw [htokz, divergence_bind] at h5
        exact Option.noConfusion h5
      | some r =>
        cases r with
        | error e =>
          rw [htokz] at h5
          rw [show ((ExceptT.mk (some (Except.error e)) : PyM (List Token)) >>= _) =
              (liftE (.error e) : PyM InterpState) from rfl] at h5
          exact Except.noConfusion (Option.some.inj h5)
        | ok toks =>
          rw [htokz] at h5
          rw [show ((ExceptT.mk (some (Except.ok toks)) : PyM (List Token)) >>=
              (fun toks => parseFile fuel toks >>= fun ast =>
                pure ⟨fr.filename, ast, scopedSceneId fr, st.inventory⟩)) =
              (parseFile fuel toks >>= fun ast =>
                pure ⟨fr.filename, ast, scopedSceneId fr, st.inventory⟩ : PyM InterpState) from rfl] at h5
          cases hp : (parseFile fuel toks : Option (Except PyErr FileContent)) with
          | none =>
            rw [show (parseFile fuel toks : PyM FileContent) = ExceptT.mk none from hp,
                divergence_bind] at h5
            exact Option.noConfusion h5
          | some r2 =>
            cases r2 with
            | error e =>
              rw [show (parseFile fuel toks : PyM FileContent) =
                  liftE (.error e) from hp, liftE_error_bind] at h5
              exact Except.noConfusion (Option.some.inj h5)
            | ok ast =>
              rw [show (parseFile fuel toks : PyM FileContent) =
                  liftE (.ok ast) from hp, liftE_ok_bind, pym_pure_eq] at h5
              have hst : (⟨fr.filename, ast, scopedSceneId fr, st.inventory⟩ : InterpState) = st2 :=
                Except.ok.inj (Option.some.inj h5)
              refine ⟨by rw [← hst], text, toks, rfl, htokz, ?_⟩
              rw [← hst]
              exact hp
  refine ⟨hmain, ?_, ?_, ?_, hinv.2⟩
  · rw [hinv.1]
  · rw [hinv.1]
  · rw [hinv.1]

theorem c6_file_reference_switch_witness :
    executeSelectDirective 300 fsW stW3 [fileTargetOption] 1 =
      liftE (.ok (false, ⟨"f.nar".data, fcParsed, "m".data, ["key".data]⟩,
        optionLines (visibleOptions stW3.inventory [fileTargetOption]))) ∧
    (["key".data] : List (List Char)) = stW3.inventory := by
  have happ := c6_file_reference_switch 300 fsW stW3 [fileTargetOption] 1 fileTargetOption
      ⟨"f.nar".data, none, tkId "m"⟩ ⟨"f.nar".data, fcParsed, "m".data, ["key".data]⟩
      rfl rfl rfl
  exact ⟨happ.1, happ.2.2.2.1.symm⟩

/-- C8, amended: the option list of a select directive tolerates a missing
trailing comma (comma absence after an option ends the list), and it ALSO
accepts an extra trailing comma before the closing brace — after consuming the
comma the loop re-checks the brace and exits, so both forms parse to the same
single-option select directive. -/
theorem c8_amended (f : Nat) (optToks : List Token) (opt : SelectOption) (rest : List Token)
    (h0a : (peek (optToks ++ mkKwToken .CloseBrace :: mkKwToken .Semicolon :: rest)).token_type ≠
             TokenType.CloseBrace)
    (h0b : (peek (optToks ++ mkKwToken .Comma :: mkKwToken .CloseBrace ::
             mkKwToken .Semicolon :: rest)).token_type ≠ TokenType.CloseBrace)
    (h1 : parseSelectOption f (optToks ++ mkKwToken .CloseBrace :: mkKwToken .Semicolon :: rest) =
            liftE (.ok (opt, mkKwToken .CloseBrace :: mkKwToken .Semicolon :: rest)))
    (h2 : parseSelectOption f (optToks ++ mkKwToken .Comma :: mkKwToken .CloseBrace ::
            mkKwToken .Semicolon :: rest) =
            liftE (.ok (opt, mkKwToken .Comma :: mkKwToken .CloseBrace ::
              mkKwToken .Semicolon :: rest))) :
    parseSelectDirective (f + 1)
        (mkKwToken .Select :: mkKwToken .OpenBrace ::
          (optToks ++ mkKwToken .CloseBrace :: mkKwToken .Semicolon :: rest)) =
      liftE (.ok (Directive.select [opt], rest)) ∧
    parseSelectDirective (f + 1)
        (mkKwToken .Select :: mkKwToken .OpenBrace ::
          (optToks ++ mkKwToken .Comma :: mkKwToken .CloseBrace ::
            mkKwToken .Semicolon :: rest)) =
      liftE (.ok (Directive.select [opt], rest)) := by
  constructor
  · rw [parseSelectDirective]
    rw [show consume .Select (mkKwToken .Select :: mkKwToken .OpenBrace ::
          (optToks ++ mkKwToken .CloseBrace :: mkKwToken .Semicolon :: rest)) =
        .ok (mkKwToken .OpenBrace ::
          (optToks ++ mkKwToken .CloseBrace :: mkKwToken .Semicolon :: rest)) from rfl]
    rw [liftE_ok_bind]
    rw [show consume .OpenBrace (mkKwToken .OpenBrace ::
          (optToks ++ mkKwToken .CloseBrace :: mkKwToken .Semicolon :: rest)) =
        .ok (optToks ++ mkKwToken .CloseBrace :: mkKwToken .Semicolon :: rest) from rfl]
    rw [liftE_ok_bind]
    rw [parseSelectOptionsLoop, if_neg h0a]
    show ((parseSelectOption f (optToks ++ mkKwToken .CloseBrace :: mkKwToken .Semicolon :: rest) >>=
        fun x =>
          match x with
          | (opt, ts) =>
            if (peek ts).token_type = TokenType.Comma then do
              let ts ← liftE (consume .Comma ts)
              let (opts, ts) ← parseSelectOptionsLoop f ts
              return (opt :: opts, ts)
            else
              return ([opt], ts)) >>= _) = _
    rw [h1, liftE_ok_bind]
    show ((if (peek (mkKwToken .CloseBrace :: mkKwToken .Semicolon :: rest)).token_type =
            TokenType.Comma then do
            let ts ← liftE (consume .Comma (mkKwToken .CloseBrace :: mkKwToken .Semicolon :: rest))
            let (opts, ts) ← parseSelectOptionsLoop f ts
            return (opt :: opts, ts)
          else
            return ([opt], mkKwToken .CloseBrace :: mkKwToken .Semicolon :: rest) : PyM _) >>= _) = _
    rw [if_neg (show ¬ ((peek (mkKwToken .CloseBrace :: mkKwToken .Semicolon :: rest)).token_type =
          TokenType.Comma) from fun h => nomatch h)]
    rw [pym_pure_eq, liftE_ok_bind]
    rfl
  · rw [parseSelectDirective]
    rw [show consume .Select (mkKwToken .Select :: mkKwToken .OpenBrace ::
          (optToks ++ mkKwToken .Comma :: mkKwToken .CloseBrace :: mkKwToken .Semicolon :: rest)) =
        .ok (mkKwToken .OpenBrace ::
          (optToks ++ mkKwToken .Comma :: mkKwToken .CloseBrace :: mkKwToken .Semicolon :: rest))
        from rfl]
    rw [liftE_ok_bind]
    rw [show consume .OpenBrace (mkKwToken .OpenBrace ::
          (optToks ++ mkKwToken .Comma :: mkKwToken .CloseBrace :: mkKwToken .Semicolon :: rest)) =
        .ok (optToks ++ mkKwToken .Comma :: mkKwToken .CloseBrace :: mkKwToken .Semicolon :: rest)
        from rfl]
    rw [liftE_ok_bind]
    rw [parseSelectOptionsLoop, if_neg h0b]
    show ((parseSelectOption f (optToks ++ mkKwToken .Comma :: mkKwToken .CloseBrace ::
          mkKwToken .Semicolon :: rest) >>=
        fun x =>
          match x with
          | (opt, ts) =>
            if (peek ts).token_type = TokenType.Comma then do
              let ts ← liftE (consume .Comma ts)
              let (opts, ts) ← parseSelectOptionsLoop f ts
              return (opt :: opts, ts)
            else
              return ([opt], ts)) >>= _) = _
    rw [h2, liftE_ok_bind]
    show ((if (peek (mkKwToken .Comma :: mkKwToken .CloseBrace ::
            mkKwToken .Semicolon :: rest)).token_type = TokenType.Comma then do
            let ts ← liftE (consume .Comma (mkKwToken .Comma :: mkKwToken .CloseBrace ::
              mkKwToken .Semicolon :: rest))
            let (opts, ts) ← parseSelectOptionsLoop f ts
            return (opt :: opts, ts)
          else
            return ([opt], mkKwToken .Comma :: mkKwToken .CloseBrace ::
              mkKwToken .Semicolon :: rest) : PyM _) >>= _) = _
    rw [if_pos (show (peek (mkKwToken .Comma :: mkKwToken .CloseBrace ::
          mkKwToken .Semicolon :: rest)).token_type = TokenType.Comma from rfl)]
    rw [show consume .Comma (mkKwToken .Comma :: mkKwToken .CloseBrace ::
          mkKwToken .Semicolon :: rest) =
        .ok (mkKwToken .CloseBrace :: mkKwToken .Semicolon :: rest) from rfl]
    rw [liftE_ok_bind]
    rw [show parseSelectOptionsLoop f (mkKwToken .CloseBrace :: mkKwToken .Semicolon :: rest) =
        liftE (.ok (([] : List SelectOption),
          mkKwToken .CloseBrace :: mkKwToken .Semicolon :: rest)) from by
          rw [parseSelectOptionsLoop.eq_def]
          exact if_pos rfl]
    rw [liftE_ok_bind]
    rfl

theorem c8_amended_witness :
    parseSelectDirective 6
        (mkKwToken .Select :: mkKwToken .OpenBrace ::
          ([tkStr "a", mkKwToken .Arrow, tkId "exit"] ++
            mkKwToken .CloseBrace :: mkKwToken .Semicolon :: [eofToken])) =
      liftE (.ok (Directive.select [⟨none, "a".data, .scene ⟨none, tkId "exit"⟩⟩],
        [eofToken])) ∧
    parseSelectDirective 6
        (mkKwToken .Select :: mkKwToken .OpenBrace ::
          ([tkStr "a", mkKwToken .Arrow, tkId "exit"] ++
            mkKwToken .Comma :: mkKwToken .CloseBrace :: mkKwToken .Semicolon :: [eofToken])) =
      liftE (.ok (Directive.select [⟨none, "a".data, .scene ⟨none, tkId "exit"⟩⟩],
        [eofToken])) :=
  c8_amended 5 [tkStr "a", mkKwToken .Arrow, tkId "exit"]
    ⟨none, "a".data, .scene ⟨none, tkId "exit"⟩⟩ [eofToken]
    (by decide) (by decide) rfl rfl

theorem findSceneInList_eq_find (l : List Scene) (sid : List Char) :
    findSceneInList l sid = firstMatchingScene l sid := by
  induction l with
  | nil => rfl
  | cons sc rest ih =>
    by_cases h : sc.identifier.value = sid
    · simp [findSceneInList, firstMatchingScene, List.find?_cons, h]
    · simp only [findSceneInList, firstMatchingScene] at *
      simp [List.find?_cons, h, ih]

theorem findInModules_eq (ms : List NarModule) (mid sid : List Char) :
    findInModules ms mid sid = firstMatchingScene (matchingModulesScenes ms mid) sid := by
  induction ms with
  | nil => rfl
  | cons m rest ih =>
    by_cases h : m.module_id.value = mid
    · have hsplit : matchingModulesScenes (m :: rest) mid =
          m.scene_list ++ matchingModulesScenes rest mid := by
        simp [matchingModulesScenes, List.filter_cons, h]
      rw [hsplit]
      rw [show findInModules (m :: rest) mid sid =
          (findSceneInList m.scene_list sid).or (findInModules rest mid sid) from by
            rw [findInModules.eq_def]
            show (if m.module_id.value = mid then
                    match findSceneInList m.scene_list sid with
                    | some sc => some sc
                    | none => findInModules rest mid sid
                  else findInModules rest mid sid) = _
            rw [if_pos h]
            cases findSceneInList m.scene_list sid <;> rfl]
      rw [findSceneInList_eq_find, ih]
      show (firstMatchingScene m.scene_list sid).or _ = _
      unfold firstMatchingScene
      rw [List.find?_append]
    · have hsplit : matchingModulesScenes (m :: rest) mid = matchingModulesScenes rest mid := by
        simp [matchingModulesScenes, List.filter_cons, h]
      rw [hsplit, ← ih]
      rw [findInModules.eq_def]
      show (if m.module_id.value = mid then
              match findSceneInList m.scene_list sid with
              | some sc => some sc
              | none => findInModules rest mid sid
            else findInModules rest mid sid) = _
      rw [if_neg h]


/-- C10, amended: neither the parser nor AST construction rejects duplicate
scene or module identifiers (a file with two scenes named `s` and two modules
named `m` parses successfully); `get_scene` with a bare id returns the first
top-level scene in declaration order whose identifier matches; with a single
module-qualified id it scans the modules in declaration order and returns the
first matching scene found among ALL modules whose identifier matches — when
the first matching module lacks the scene, a later module with the same
identifier can supply it; it raises an error exactly when no match exists. -/
theorem c10_amended :
    parseFile 50 dupToks = liftE (.ok dupFc) ∧
    (∀ fc sid, hasScope sid = false →
      getScene fc sid =
        (match firstMatchingScene fc.scene_list sid with
         | some sc => .ok sc
         | none => .error .valueError)) ∧
    (∀ fc idStr mid sid, hasScope idStr = true → splitScope idStr = [mid, sid] →
      getScene fc idStr =
        (match firstMatchingScene (matchingModulesScenes fc.module_list mid) sid with
         | some sc => .ok sc
         | none => .error .valueError)) := by
  refine ⟨rfl, ?_, ?_⟩
  · intro fc sid h
    simp only [getScene, h, Bool.false_eq_true, if_false, findSceneInList_eq_find]
  · intro fc idStr mid sid h hsplit
    simp only [getScene, h, if_true, hsplit, findInModules_eq]

theorem c10_amended_witness :
    getScene fcW "main".data =
      (match firstMatchingScene fcW.scene_list "main".data with
       | some sc => .ok sc
       | none => .error .valueError) ∧
    getScene fcCx "m::b".data =
      (match firstMatchingScene (matchingModulesScenes fcCx.module_list "m".data) "b".data with
       | some sc => .ok sc
       | none => .error .valueError) :=
  ⟨(c10_amended).2.1 fcW "main".data (by decide),
   (c10_amended).2.2 fcCx "m::b".data "m".data "b".data (by decide) (by decide)⟩
